import Mathlib

/-!
Verification of the quant gateway client, src/quant/impl/core/gateway.py,
through a shallow embedding.  Methods of the Gateway class become pure Lean
functions from an explicit state to a new state paired with a list of
observable effects; the asynchronous calls in the source are sequential
awaits on one cooperative scheduler, so their composition is modelled by
ordinary function composition, and the two infinite loops of the source,
read_websocket and keep_alive_check, are modelled by their loop bodies as
single step functions.  Bytes are natural numbers, timestamps and intervals
are rationals, and a JSON value is modelled by the inductive J below.  The
zlib inflate stream is external library code, so the embedding records the
exact byte string handed to it instead of modelling inflation itself: two
runs that hand the same byte strings, in the same order, to the same
persistent inflater produce the same decompressed output.
-/

namespace Quant

/-- A byte of the websocket stream, modelled as a natural number. -/
abbrev Byte := Nat

/-- The class constant ZLIB_SUFFIX of Gateway, gateway.py line 53: the four
byte zlib sync flush marker 00 00 ff ff that terminates every complete
transport message. -/
def ZLIB_SUFFIX : List Byte := [0, 0, 255, 255]

/-- Python slicing of the last four elements of a list, which yields the
whole list when it is shorter than four. -/
def lastFour (l : List Byte) : List Byte := l.drop (l.length - 4)

/-- The binary branch of Gateway.on_websocket_message, gateway.py lines
188 to 200, acting on the accumulated buffer.  The received chunk is
appended to the buffer; when the chunk itself is shorter than four bytes or
the last four bytes of the chunk differ from ZLIB_SUFFIX, the method
returns with the enlarged buffer and no output, reporting the message
incomplete.  Otherwise the entire accumulated buffer is handed to the
persistent inflate stream and the buffer is cleared.  The second component
records the byte string handed to the inflater, if any. -/
def on_websocket_message (buffer chunk : List Byte) :
    List Byte × Option (List Byte) :=
  let buf := buffer ++ chunk
  if chunk.length < 4 ∨ lastFour chunk ≠ ZLIB_SUFFIX then (buf, none)
  else ([], some buf)

/-- Feeding a sequence of binary chunks to on_websocket_message in arrival
order, starting from the given buffer, collecting in order every byte
string handed to the inflate stream. -/
def feedAll (buffer : List Byte) : List (List Byte) → List Byte × List (List Byte)
  | [] => (buffer, [])
  | c :: cs =>
    let r := on_websocket_message buffer c
    let rest := feedAll r.1 cs
    (rest.1, r.2.toList ++ rest.2)

/-- A chunk passes the completion test of the source exactly when it has at
least four bytes and ends with the marker. -/
def chunkComplete (c : List Byte) : Prop :=
  4 ≤ c.length ∧ lastFour c = ZLIB_SUFFIX

instance (c : List Byte) : Decidable (chunkComplete c) := by
  unfold chunkComplete; infer_instance

/-- A JSON value as produced by json.loads, restricted to the shapes the
gateway code inspects: null, integers, general numbers, strings, booleans
and objects. -/
inductive J where
  | null
  | jint (n : Int)
  | num (q : Rat)
  | str (s : String)
  | jbool (b : Bool)
  | obj (fields : List (String × J))

/-- Key access on a decoded JSON object, as data["key"]; none models the
KeyError and TypeError paths, which the read loop of the source catches. -/
def J.lookup (j : J) (k : String) : Option J :=
  match j with
  | .obj fields => fields.lookup k
  | _ => none

/-- A decoded gateway envelope, the dictionary handed to
Gateway._validate_opcode: integer opcode, optional sequence, optional event
name and payload. -/
structure Frame where
  op : Int
  s : Option Int
  t : Option String
  d : J

/-- The mutable attributes of the Gateway instance relevant to the claims,
from Gateway.__init__, gateway.py lines 55 to 98.  has_socket models
websocket_connection being non-None and socket_closed models
websocket_connection.closed; previous_heartbeat and latency carry the
time.perf_counter values. -/
structure GatewayState where
  token : String
  ws_connected : Bool
  sequence : Option Int
  session_id : Option String
  previous_heartbeat : Rat
  latency : Option Rat
  buffer : List Byte
  has_socket : Bool
  socket_closed : Bool

/-- The state of a freshly constructed Gateway: not connected, no sequence,
no session id, previous heartbeat time zero, no latency, empty buffer, no
socket yet. -/
def initState (token : String) : GatewayState :=
  { token := token, ws_connected := false, sequence := none,
    session_id := none, previous_heartbeat := 0, latency := none,
    buffer := [], has_socket := false, socket_closed := true }

/-- The externally observable actions of the gateway methods: socket
operations, outbound frames, cache writes, event sink calls, task spawning
and sleeps. -/
inductive Effect where
  | closeSocket (code : Int)
  | connectSocket
  | resetInflate
  | sendIdentify
  | sendResume (token : String) (session_id : Option String) (seq : Option Int)
  | sendPayload (payload : List (String × J))
  | cacheItem (event : Option String) (payload : J)
  | dispatchEvent (event : Option String) (payload : J)
  | spawnReadLoop
  | enterKeepAlive
  | sleepFor (seconds : Rat)
  | scheduleHeartbeat (interval : Rat)

/-- Gateway.create_payload, gateway.py lines 321 to 331: builds the wire
dictionary with keys op and d, and only for the DISPATCH opcode also the
keys s and t.  For every other opcode the sequence and event_name
arguments are discarded. -/
def create_payload (op : Int) (data : J) (sequence : Option Int)
    (event_name : Option String) : List (String × J) :=
  let payload : List (String × J) := [(("op"), J.jint op), (("d"), data)]
  if op = 0 then
    payload ++ [(("s"), sequence.elim J.null fun n => J.jint n),
                (("t"), event_name.elim J.null J.str)]
  else payload

/-- Gateway.resume_connection, gateway.py lines 256 to 267: returns with no
action when the socket is closed, otherwise sends the RESUME payload built
from the stored token, session id and sequence. -/
def resume_connection (st : GatewayState) : GatewayState × List Effect :=
  if st.socket_closed then (st, [])
  else (st, [.sendResume st.token st.session_id st.sequence])

/-- Gateway.send_identify, gateway.py lines 269 to 274: delegates to
resume_connection when asked to resume, otherwise sends the IDENTIFY
payload. -/
def send_identify (st : GatewayState) (resume : Bool) :
    GatewayState × List Effect :=
  if resume then resume_connection st else (st, [.sendIdentify])

/-- Gateway.start, gateway.py lines 161 to 177, up to entering the keep
alive loop: opens a fresh websocket, marks the connection live, resets the
inflate stream and the buffer, sends IDENTIFY, spawns the read loop and
enters keep_alive_check, whose iterations are modelled by keep_alive_step.
No field other than the socket flags, the connected flag and the buffer is
touched: in particular sequence and session_id keep their values. -/
def start (st : GatewayState) : GatewayState × List Effect :=
  let st1 := { st with has_socket := true, socket_closed := false,
                       ws_connected := true, buffer := [] }
  let r := send_identify st1 false
  (r.1, [.connectSocket, .resetInflate] ++ r.2 ++ [.spawnReadLoop, .enterKeepAlive])

/-- Gateway.error_reconnect, gateway.py lines 179 to 186: resumes for close
code 4009, otherwise clears the connected flag and runs start again, which
sends a fresh IDENTIFY. -/
def error_reconnect (st : GatewayState) (code : Int) :
    GatewayState × List Effect :=
  if code = 4009 then resume_connection st
  else start { st with ws_connected := false }

/-- Gateway.close, gateway.py lines 276 to 285: returns when there is no
socket object, otherwise clears the connected flag, closes the socket with
the given code and clears the buffer. -/
def close (st : GatewayState) (code : Int) : GatewayState × List Effect :=
  if st.has_socket = false then (st, [])
  else ({ st with ws_connected := false, socket_closed := true, buffer := [] },
        [.closeSocket code])

/-- Gateway.send_heartbeat, gateway.py lines 287 to 295: returns at once
when the socket is closed; otherwise sends the payload built by
create_payload for the HEARTBEAT opcode, records the send time, sleeps the
interval and schedules the next run of itself. -/
def send_heartbeat (st : GatewayState) (interval now : Rat) :
    GatewayState × List Effect :=
  if st.socket_closed then (st, [])
  else
    ({ st with previous_heartbeat := now },
     [.sendPayload (create_payload 1 J.null st.sequence none),
      .sleepFor interval, .scheduleHeartbeat interval])

/-- Gateway.send_hello, gateway.py lines 297 to 301: divides the received
heartbeat_interval by 1000, sleeps (interval - 2000) / 1000 seconds and
spawns the heartbeat task with the computed interval.  The state is
untouched: no interval is stored and nothing is sent. -/
def send_hello (st : GatewayState) (heartbeat_interval : Rat) :
    GatewayState × List Effect :=
  let interval := heartbeat_interval / 1000
  (st, [.sleepFor ((interval - 2000) / 1000), .scheduleHeartbeat interval])

/-- One iteration of the Gateway.keep_alive_check loop body, gateway.py
lines 227 to 234: sleep twenty seconds, then, when more than sixty seconds
have passed since the recorded heartbeat send time, close the socket with
code 4000 and run error_reconnect with code 4000. -/
def keep_alive_step (st : GatewayState) (now : Rat) :
    GatewayState × List Effect :=
  if st.previous_heartbeat + 60 < now then
    let r := error_reconnect { st with socket_closed := true } 4000
    (r.1, [.sleepFor 20, .closeSocket 4000] ++ r.2)
  else (st, [.sleepFor 20])

/-- Gateway._validate_opcode, gateway.py lines 208 to 225, at time now.
DISPATCH stores the sequence, writes the cache and calls the event sink; a
DISPATCH without a sequence raises before mutating anything, which the
read loop catches, so it is a no-op here.  INVALID_SESSION closes the
socket with code 4000 and runs error_reconnect with code 4000.  HELLO
extracts heartbeat_interval from the payload and runs send_hello.
HEARTBEAT_ACK records the latency.  RECONNECT runs close with code 1012.
Every other opcode falls through the match with no action. -/
def validate_opcode (st : GatewayState) (f : Frame) (now : Rat) :
    GatewayState × List Effect :=
  if f.op = 0 then
    match f.s with
    | some n => ({ st with sequence := some n },
                 [.cacheItem f.t f.d, .dispatchEvent f.t f.d])
    | none => (st, [])
  else if f.op = 9 then
    let r := error_reconnect { st with socket_closed := true } 4000
    (r.1, .closeSocket 4000 :: r.2)
  else if f.op = 10 then
    match J.lookup f.d ("heartbeat_interval") with
    | some (J.jint k) => send_hello st (k : Rat)
    | some (J.num q) => send_hello st q
    | _ => (st, [])
  else if f.op = 11 then
    ({ st with latency := some (now - st.previous_heartbeat) }, [])
  else if f.op = 7 then
    close st 1012
  else (st, [])

/-- Processing a list of timed frames in arrival order, threading the state
and concatenating the effects, as the sequential read loop does. -/
def run_frames : GatewayState → List (Frame × Rat) → GatewayState × List Effect
  | st, [] => (st, [])
  | st, (f, now) :: rest =>
    let r := validate_opcode st f now
    let rr := run_frames r.1 rest
    (rr.1, r.2 ++ rr.2)

/-- The event sink calls contained in an effect list, in order. -/
def dispatches (l : List Effect) : List (Option String × J) :=
  l.filterMap fun e =>
    match e with
    | .dispatchEvent t d => some (t, d)
    | _ => none

/-- The event sink call a single frame is expected to produce: exactly one
for a DISPATCH frame carrying a sequence, none otherwise. -/
def dispatchOf (p : Frame × Rat) : Option (Option String × J) :=
  if p.1.op = 0 then p.1.s.map fun _ => (p.1.t, p.1.d) else none

/-- The number of fresh socket connections in an effect list. -/
def connectCount (l : List Effect) : Nat :=
  l.countP fun e =>
    match e with
    | .connectSocket => true
    | _ => false

/-- Whether an effect list performs any reconnection action: a fresh socket
connection, a RESUME or an IDENTIFY. -/
def reconnects (l : List Effect) : Bool :=
  l.any fun e =>
    match e with
    | .connectSocket => true
    | .sendResume _ _ _ => true
    | .sendIdentify => true
    | _ => false

/-- Whether an effect list sends a handshake frame, IDENTIFY or RESUME. -/
def sendsHandshake (l : List Effect) : Bool :=
  l.any fun e =>
    match e with
    | .sendIdentify => true
    | .sendResume _ _ _ => true
    | _ => false

/-- Order on optional sequence numbers: absent is below everything, and
present values compare as integers. -/
def seqLEb : Option Int → Option Int → Bool
  | none, _ => true
  | some _, none => false
  | some a, some b => decide (a ≤ b)

/-- The stored sequence value after each processed frame, in order. -/
def seq_trace : GatewayState → List (Frame × Rat) → List (Option Int)
  | _, [] => []
  | st, (f, now) :: rest =>
    let st1 := (validate_opcode st f now).1
    st1.sequence :: seq_trace st1 rest

/-- The sequence numbers carried by the DISPATCH frames of a timed frame
list, in arrival order. -/
def dispSeqs (fs : List (Frame × Rat)) : List (Option Int) :=
  fs.filterMap fun p => if p.1.op = 0 then p.1.s.map some else none

/-- A sample mid-session state: connected, open socket, stored sequence 7
and a stored session id. -/
def stSample : GatewayState :=
  { token := ("tok"), ws_connected := true, sequence := some 7,
    session_id := some ("abc"), previous_heartbeat := 0, latency := none,
    buffer := [], has_socket := true, socket_closed := false }

/-- The sample state with the socket already closed. -/
def stClosed : GatewayState := { stSample with socket_closed := true }

/-- An INVALID_SESSION frame as decoded from the wire. -/
def invalidSessionFrame : Frame :=
  { op := 9, s := none, t := none, d := J.null }

/-- A RECONNECT frame as decoded from the wire. -/
def reconnectFrame : Frame :=
  { op := 7, s := none, t := none, d := J.null }

/-- A HEARTBEAT_ACK frame as decoded from the wire. -/
def ackFrame : Frame :=
  { op := 11, s := none, t := none, d := J.null }

/-- A HELLO frame carrying heartbeat_interval 41250. -/
def helloFrame : Frame :=
  { op := 10, s := none, t := none,
    d := J.obj [(("heartbeat_interval"), J.jint 41250)] }

/-- A DISPATCH frame with the given sequence and event name and an empty
object payload. -/
def dispatchFrame (n : Int) (ev : String) : Frame :=
  { op := 0, s := some n, t := some ev, d := J.obj [] }

lemma on_websocket_message_of_incomplete (b c : List Byte)
    (h : ¬ chunkComplete c) : on_websocket_message b c = (b ++ c, none) := by
  unfold on_websocket_message
  rw [if_pos]
  unfold chunkComplete at h
  push_neg at h
  by_cases hl : c.length < 4
  · exact Or.inl hl
  · exact Or.inr (h (by omega))

lemma on_websocket_message_of_complete (b c : List Byte)
    (h : chunkComplete c) : on_websocket_message b c = ([], some (b ++ c)) := by
  unfold on_websocket_message
  rw [if_neg]
  push_neg
  exact ⟨by have := h.1; omega, h.2⟩

lemma lastFour_append (a c : List Byte) (h : 4 ≤ c.length) :
    lastFour (a ++ c) = lastFour c := by
  unfold lastFour
  rw [List.length_append,
    show a.length + c.length - 4 = a.length + (c.length - 4) by omega,
    List.drop_append]

lemma feedAll_of_all_incomplete (cs : List (List Byte)) :
    ∀ b : List Byte, (∀ x ∈ cs, ¬ chunkComplete x) →
      feedAll b cs = (b ++ cs.flatten, []) := by
  induction cs with
  | nil => intro b _; simp [feedAll]
  | cons c cs ih =>
    intro b h
    have hc : ¬ chunkComplete c := h c (List.mem_cons_self c cs)
    have hrest : ∀ x ∈ cs, ¬ chunkComplete x :=
      fun x hx => h x (List.mem_cons_of_mem c hx)
    simp [feedAll, on_websocket_message_of_incomplete b c hc, ih _ hrest,
      List.append_assoc]

lemma feedAll_append (xs ys : List (List Byte)) : ∀ b : List Byte,
    feedAll b (xs ++ ys) =
      ((feedAll (feedAll b xs).1 ys).1,
        (feedAll b xs).2 ++ (feedAll (feedAll b xs).1 ys).2) := by
  induction xs with
  | nil => intro b; simp [feedAll]
  | cons c cs ih =>
    intro b
    simp [feedAll, ih, List.append_assoc]

lemma error_reconnect_of_fresh (st : GatewayState) (code : Int)
    (h : code ≠ 4009) :
    error_reconnect st code =
      ({ st with has_socket := true, socket_closed := false,
                 ws_connected := true, buffer := [] },
       [.connectSocket, .resetInflate, .sendIdentify, .spawnReadLoop,
        .enterKeepAlive]) := by
  simp [error_reconnect, start, send_identify, h]

lemma validate_opcode_sequence_of_not_dispatch (st : GatewayState) (f : Frame)
    (now : Rat) (h : f.op ≠ 0 ∨ f.s = none) :
    (validate_opcode st f now).1.sequence = st.sequence := by
  by_cases h0 : f.op = 0
  · have hs : f.s = none := by
      rcases h with h | h
      · exact absurd h0 h
      · exact h
    simp [validate_opcode, h0, hs]
  · simp only [validate_opcode, if_neg h0]
    by_cases h9 : f.op = 9
    · simp [h9, error_reconnect_of_fresh _ 4000 (by decide)]
    · simp only [if_neg h9]
      by_cases h10 : f.op = 10
      · simp only [h10, if_pos rfl]
        cases hl : J.lookup f.d ("heartbeat_interval") with
        | none => simp
        | some v => cases v <;> simp [send_hello]
      · simp only [if_neg h10]
        by_cases h11 : f.op = 11
        · simp [h11]
        · simp only [if_neg h11]
          by_cases h7 : f.op = 7
          · simp only [h7, if_pos rfl, close]
            split_ifs <;> rfl
          · simp [h7]

lemma dispatches_append (a b : List Effect) :
    dispatches (a ++ b) = dispatches a ++ dispatches b := by
  simp [dispatches]

lemma dispatches_validate_opcode (st : GatewayState) (f : Frame) (now : Rat) :
    dispatches (validate_opcode st f now).2 = (dispatchOf (f, now)).toList := by
  by_cases h0 : f.op = 0
  · simp only [validate_opcode, dispatchOf, h0, if_pos rfl]
    cases hs : f.s with
    | none => simp [dispatches]
    | some n => simp [dispatches]
  · have hd : dispatchOf (f, now) = none := by simp [dispatchOf, h0]
    rw [hd]
    simp only [validate_opcode, if_neg h0]
    by_cases h9 : f.op = 9
    · simp [h9, error_reconnect_of_fresh _ 4000 (by decide), dispatches]
    · simp only [if_neg h9]
      by_cases h10 : f.op = 10
      · simp only [h10, if_pos rfl]
        cases hl : J.lookup f.d ("heartbeat_interval") with
        | none => simp [dispatches]
        | some v => cases v <;> simp [send_hello, dispatches]
      · simp only [if_neg h10]
        by_cases h11 : f.op = 11
        · simp [h11, dispatches]
        · simp only [if_neg h11]
          by_cases h7 : f.op = 7
          · simp only [h7, if_pos rfl, close]
            split_ifs <;> simp [dispatches]
          · simp [h7, dispatches]

lemma dispatches_run_frames (fs : List (Frame × Rat)) :
    ∀ st : GatewayState,
      dispatches (run_frames st fs).2 = fs.filterMap dispatchOf := by
  induction fs with
  | nil => intro st; simp [run_frames, dispatches]
  | cons p rest ih =>
    intro st
    obtain ⟨f, now⟩ := p
    simp only [run_frames]
    rw [dispatches_append, dispatches_validate_opcode, ih,
      List.filterMap_cons]
    cases dispatchOf (f, now) <;> simp

lemma seqLEb_refl (a : Option Int) : seqLEb a a = true := by
  cases a <;> simp [seqLEb]

lemma chain_seq_trace (fs : List (Frame × Rat)) : ∀ st : GatewayState,
    List.Chain' (fun a b => seqLEb a b = true) (st.sequence :: dispSeqs fs) →
    List.Chain' (fun a b => seqLEb a b = true) (st.sequence :: seq_trace st fs) := by
  induction fs with
  | nil => intro st _; simp [seq_trace]
  | cons p rest ih =>
    intro st h
    obtain ⟨f, now⟩ := p
    by_cases hd : f.op = 0 ∧ ∃ n, f.s = some n
    · obtain ⟨h0, n, hs⟩ := hd
      have hst1 : (validate_opcode st f now).1.sequence = some n := by
        simp [validate_opcode, h0, hs]
      have hdisp : dispSeqs ((f, now) :: rest) = some n :: dispSeqs rest := by
        simp [dispSeqs, List.filterMap_cons, h0, hs]
      rw [hdisp, List.chain'_cons] at h
      simp only [seq_trace, List.chain'_cons]
      constructor
      · rw [hst1]; exact h.1
      · have := ih (validate_opcode st f now).1 (by rw [hst1]; exact h.2)
        exact this
    · have hkeep : (validate_opcode st f now).1.sequence = st.sequence := by
        apply validate_opcode_sequence_of_not_dispatch
        by_cases h0 : f.op = 0
        · right
          cases hs : f.s with
          | none => rfl
          | some m => exact absurd ⟨h0, m, hs⟩ hd
        · left; exact h0
      have hdisp : dispSeqs ((f, now) :: rest) = dispSeqs rest := by
        unfold dispSeqs
        rw [List.filterMap_cons]
        have hnone : (if f.op = 0 then f.s.map some else none) = none := by
          by_cases h0 : f.op = 0
          · cases hs : f.s with
            | none => simp [h0]
            | some m => exact absurd ⟨h0, m, hs⟩ hd
          · simp [h0]
        rw [hnone]
      rw [hdisp] at h
      simp only [seq_trace, List.chain'_cons]
      constructor
      · rw [hkeep]; exact seqLEb_refl _
      · exact ih (validate_opcode st f now).1 (by rw [hkeep]; exact h)

/-- A short sample frame sequence: READY, a heartbeat ack, then
MESSAGE_CREATE. -/
def sampleFrames : List (Frame × Rat) :=
  [(dispatchFrame 8 ("READY"), 0), (ackFrame, 1),
   (dispatchFrame 9 ("MESSAGE_CREATE"), 2)]

/-- C1, amended: feeding a valid message split into ordered chunks gives
the same bytes to the inflate stream as feeding it whole, provided no
chunk before the last passes the completion test and the last chunk is at
least four bytes long.  Without that proviso the claim fails, because the
source tests the final received chunk, not the accumulated buffer. -/
theorem chunked_feed_matches_whole (cs : List (List Byte)) (c m : List Byte)
    (hm : m = cs.flatten ++ c)
    (hlen : 4 ≤ c.length)
    (hmid : ∀ x ∈ cs, ¬ chunkComplete x)
    (hvalid : lastFour m = ZLIB_SUFFIX) :
    (feedAll [] (cs ++ [c])).2 = (feedAll [] [m]).2 ∧
    (feedAll [] [m]).2 = [m] := by
  have hc : lastFour c = ZLIB_SUFFIX := by
    rw [hm, lastFour_append _ c hlen] at hvalid
    exact hvalid
  have hcc : chunkComplete c := ⟨hlen, hc⟩
  have hmc : chunkComplete m := by
    refine ⟨?_, hvalid⟩
    rw [hm, List.length_append]
    omega
  have hwhole : feedAll [] [m] = ([], [m]) := by
    simp [feedAll, on_websocket_message_of_complete [] m hmc]
  refine ⟨?_, by rw [hwhole]⟩
  rw [feedAll_append cs [c] [], feedAll_of_all_incomplete cs [] hmid, hwhole]
  simp [feedAll, on_websocket_message_of_complete _ c hcc, hm]

/-- Witness for C1 at a concrete split of a concrete message. -/
theorem chunked_feed_matches_whole_check :
    (feedAll [] ([[120, 156]] ++ [[0, 0, 0, 255, 255]])).2 =
      (feedAll [] [[120, 156, 0, 0, 0, 255, 255]]).2 ∧
    (feedAll [] [[120, 156, 0, 0, 0, 255, 255]]).2 =
      [[120, 156, 0, 0, 0, 255, 255]] :=
  chunked_feed_matches_whole [[120, 156]] [0, 0, 0, 255, 255]
    [120, 156, 0, 0, 0, 255, 255] (by decide) (by decide) (by decide)
    (by decide)

/-- C1 counterexample: the message 120 156 0 0 255 255 ends with the
marker, yet split into the ordered chunks 120 156 0 and 0 255 255, each
shorter than four bytes, the decompressor hands nothing to the inflater,
while fed as one chunk it hands over the whole message: the claim as
stated fails for this split. -/
theorem chunked_feed_counterexample :
    lastFour [120, 156, 0, 0, 255, 255] = ZLIB_SUFFIX ∧
    [[120, 156, 0], [0, 255, 255]].flatten = [120, 156, 0, 0, 255, 255] ∧
    (feedAll [] [[120, 156, 0], [0, 255, 255]]).2 = [] ∧
    (feedAll [] [[120, 156, 0, 0, 255, 255]]).2 =
      [[120, 156, 0, 0, 255, 255]] := by decide

/-- C9, amended: a call reports a message complete exactly when the chunk
just received has at least four bytes and its trailing four bytes equal
the marker; completion implies that the accumulated buffer also ends with
the marker, but not conversely; an incomplete call returns with the
enlarged buffer and no output. -/
theorem completion_test_characterisation (b c : List Byte) :
    on_websocket_message b c =
      (if chunkComplete c then (([] : List Byte), some (b ++ c))
       else (b ++ c, none)) ∧
    ((on_websocket_message b c).2 ≠ none → lastFour (b ++ c) = ZLIB_SUFFIX) := by
  constructor
  · by_cases h : chunkComplete c
    · rw [if_pos h, on_websocket_message_of_complete b c h]
    · rw [if_neg h, on_websocket_message_of_incomplete b c h]
  · intro hne
    by_cases h : chunkComplete c
    · rw [lastFour_append b c h.1]
      exact h.2
    · rw [on_websocket_message_of_incomplete b c h] at hne
      simp at hne

/-- Witness for C9 at a concrete buffer and chunk. -/
theorem completion_test_characterisation_check :
    on_websocket_message [9] [0, 0, 255, 255] =
      (if chunkComplete [0, 0, 255, 255]
       then (([] : List Byte), some ([9] ++ [0, 0, 255, 255]))
       else ([9] ++ [0, 0, 255, 255], none)) ∧
    ((on_websocket_message [9] [0, 0, 255, 255]).2 ≠ none →
      lastFour ([9] ++ [0, 0, 255, 255]) = ZLIB_SUFFIX) :=
  completion_test_characterisation [9] [0, 0, 255, 255]

/-- C9 counterexample: after the chunks 9 0 0 255 and 255 the accumulated
buffer ends with the marker, yet the call reports incomplete and produces
no output, because the final chunk is a single byte: completion is not
decided by the trailing bytes of the buffer. -/
theorem completion_buffer_marker_counterexample :
    (feedAll [] [[9, 0, 0, 255], [255]]).1 = [9, 0, 0, 255, 255] ∧
    lastFour [9, 0, 0, 255, 255] = ZLIB_SUFFIX ∧
    (feedAll [] [[9, 0, 0, 255], [255]]).2 = [] := by decide

/-- C2, amended: the INVALID_SESSION handler closes the socket with code
4000 and reconnects with a fresh IDENTIFY, never a RESUME; however
session_id and sequence are left unchanged by the whole flow, so they are
not cleared before the next IDENTIFY. -/
theorem invalid_session_fresh_identify (st : GatewayState) (f : Frame)
    (now : Rat) (hop : f.op = 9) :
    (validate_opcode st f now).1.session_id = st.session_id ∧
    (validate_opcode st f now).1.sequence = st.sequence ∧
    (validate_opcode st f now).2 =
      [Effect.closeSocket 4000, Effect.connectSocket, Effect.resetInflate,
       Effect.sendIdentify, Effect.spawnReadLoop, Effect.enterKeepAlive] := by
  simp [validate_opcode, hop, error_reconnect_of_fresh _ 4000 (by decide)]

/-- Witness for C2 at a concrete state and frame. -/
theorem invalid_session_fresh_identify_check :
    (validate_opcode stSample invalidSessionFrame 0).1.session_id =
      stSample.session_id ∧
    (validate_opcode stSample invalidSessionFrame 0).1.sequence =
      stSample.sequence ∧
    (validate_opcode stSample invalidSessionFrame 0).2 =
      [Effect.closeSocket 4000, Effect.connectSocket, Effect.resetInflate,
       Effect.sendIdentify, Effect.spawnReadLoop, Effect.enterKeepAlive] :=
  invalid_session_fresh_identify stSample invalidSessionFrame 0 rfl

/-- C2 counterexample: handling INVALID_SESSION in a state holding session
id abc and sequence 7 leaves both present while an IDENTIFY is sent, so
they are not absent before the next IDENTIFY as claimed. -/
theorem invalid_session_counterexample :
    (validate_opcode stSample invalidSessionFrame 0).1.session_id =
      some ("abc") ∧
    (validate_opcode stSample invalidSessionFrame 0).1.session_id ≠ none ∧
    (validate_opcode stSample invalidSessionFrame 0).1.sequence = some 7 ∧
    sendsHandshake (validate_opcode stSample invalidSessionFrame 0).2 = true := by
  refine ⟨rfl, by decide, rfl, rfl⟩

/-- C3, amended: one iteration of the liveness monitor forces exactly one
reconnect when more than sixty seconds have passed since the recorded
heartbeat send time, and none otherwise; receiving a HEARTBEAT_ACK only
records the latency and leaves the send timestamp unchanged, so a timely
ack does not prevent the reconnect. -/
theorem keep_alive_reconnect_rule (st st2 : GatewayState) (f : Frame)
    (tAck tPoll : Rat) (hop : f.op = 11) :
    connectCount (keep_alive_step st2 tPoll).2 =
      (if st2.previous_heartbeat + 60 < tPoll then 1 else 0) ∧
    (validate_opcode st f tAck).1.previous_heartbeat =
      st.previous_heartbeat ∧
    (validate_opcode st f tAck).1.latency =
      some (tAck - st.previous_heartbeat) := by
  refine ⟨?_, ?_, ?_⟩
  · unfold keep_alive_step
    split_ifs with hc
    · rw [error_reconnect_of_fresh _ 4000 (by decide)]
      rfl
    · rfl
  · simp [validate_opcode, hop]
  · simp [validate_opcode, hop]

/-- Witness for C3 at a concrete state, ack time five and poll time
eighty. -/
theorem keep_alive_reconnect_rule_check :
    connectCount (keep_alive_step stSample 80).2 =
      (if stSample.previous_heartbeat + 60 < 80 then 1 else 0) ∧
    (validate_opcode stSample ackFrame 5).1.previous_heartbeat =
      stSample.previous_heartbeat ∧
    (validate_opcode stSample ackFrame 5).1.latency =
      some (5 - stSample.previous_heartbeat) :=
  keep_alive_reconnect_rule stSample stSample ackFrame 5 80 rfl

/-- C3 counterexample: the last heartbeat was sent at time zero and its
ack arrives at time five, well within sixty seconds, yet the poll at time
eighty still forces a reconnect, because the monitor compares only the
send timestamp: a timely ack does not prevent the reconnect. -/
theorem keep_alive_ack_counterexample :
    (validate_opcode stSample ackFrame 5).1.latency = some 5 ∧
    (validate_opcode stSample ackFrame 5).1.previous_heartbeat = 0 ∧
    connectCount
      (keep_alive_step (validate_opcode stSample ackFrame 5).1 80).2 = 1 := by
  have hph : (validate_opcode stSample ackFrame 5).1.previous_heartbeat = 0 := by
    simp [validate_opcode, ackFrame, stSample]
  refine ⟨?_, hph, ?_⟩
  · norm_num [validate_opcode, ackFrame, stSample]
  · unfold keep_alive_step
    rw [if_pos (by rw [hph]; norm_num),
      error_reconnect_of_fresh _ 4000 (by decide)]
    rfl

/-- C4, confirmed: processing any frame list calls the event sink exactly
once per DISPATCH frame carrying a sequence, with that frame's event name
and payload, in arrival order, and no other opcode produces a sink call;
the DISPATCH handler stores the received sequence. -/
theorem dispatch_event_sink (st : GatewayState) (fs : List (Frame × Rat))
    (f : Frame) (now : Rat) (n : Int) (hop : f.op = 0) (hs : f.s = some n) :
    dispatches (run_frames st fs).2 = fs.filterMap dispatchOf ∧
    (validate_opcode st f now).1.sequence = some n ∧
    dispatches (validate_opcode st f now).2 = [(f.t, f.d)] := by
  refine ⟨dispatches_run_frames fs st, ?_, ?_⟩
  · simp [validate_opcode, hop, hs]
  · rw [dispatches_validate_opcode]
    simp [dispatchOf, hop, hs]

/-- Witness for C4 on a concrete three frame run. -/
theorem dispatch_event_sink_check :
    dispatches (run_frames stSample sampleFrames).2 =
      sampleFrames.filterMap dispatchOf ∧
    (validate_opcode stSample (dispatchFrame 8 ("READY")) 0).1.sequence =
      some 8 ∧
    dispatches (validate_opcode stSample (dispatchFrame 8 ("READY")) 0).2 =
      [((dispatchFrame 8 ("READY")).t, (dispatchFrame 8 ("READY")).d)] :=
  dispatch_event_sink stSample sampleFrames (dispatchFrame 8 ("READY")) 0 8
    rfl rfl

/-- C5, code bug evidence: with stored sequence 7 and an open socket the
heartbeat sender emits the payload with op 1 and d null, because
create_payload discards its sequence argument for every opcode other than
DISPATCH; the send time is recorded as claimed.  The claim says the d
field carries the stored sequence. -/
theorem heartbeat_payload_d_null :
    stSample.sequence = some 7 ∧
    (send_heartbeat stSample 50 100).2 =
      [Effect.sendPayload [(("op"), J.jint 1), (("d"), J.null)],
       Effect.sleepFor 50, Effect.scheduleHeartbeat 50] ∧
    (send_heartbeat stSample 50 100).1.previous_heartbeat = 100 :=
  ⟨rfl, rfl, rfl⟩

/-- C6, amended: on RECONNECT the client only closes: the connected flag
is cleared, the buffer is emptied and the socket is closed with code 1012;
no fresh connection, RESUME or IDENTIFY follows. -/
theorem reconnect_opcode_only_closes (st : GatewayState) (f : Frame)
    (now : Rat) (hop : f.op = 7) (hsock : st.has_socket = true) :
    (validate_opcode st f now).2 = [Effect.closeSocket 1012] ∧
    (validate_opcode st f now).1.ws_connected = false ∧
    (validate_opcode st f now).1.socket_closed = true ∧
    (validate_opcode st f now).1.buffer = [] ∧
    reconnects (validate_opcode st f now).2 = false := by
  simp [validate_opcode, hop, close, hsock, reconnects]

/-- Witness for C6 at a concrete state and frame. -/
theorem reconnect_opcode_only_closes_check :
    (validate_opcode stSample reconnectFrame 0).2 =
      [Effect.closeSocket 1012] ∧
    (validate_opcode stSample reconnectFrame 0).1.ws_connected = false ∧
    (validate_opcode stSample reconnectFrame 0).1.socket_closed = true ∧
    (validate_opcode stSample reconnectFrame 0).1.buffer = [] ∧
    reconnects (validate_opcode stSample reconnectFrame 0).2 = false :=
  reconnect_opcode_only_closes stSample reconnectFrame 0 rfl rfl

/-- C6 counterexample: handling RECONNECT in a connected state produces
only the close effect with code 1012 and no reconnection action at all,
refuting the claimed reconnect with RESUME or fresh connect. -/
theorem reconnect_opcode_counterexample :
    (validate_opcode stSample reconnectFrame 0).2 =
      [Effect.closeSocket 1012] ∧
    reconnects (validate_opcode stSample reconnectFrame 0).2 = false :=
  ⟨rfl, rfl⟩

/-- C7, amended: when the DISPATCH frames of one unbroken session carry
sequence numbers that are non-decreasing and start no lower than the
stored value, the stored sequence is non-decreasing across all processed
frames; a non-resumed reconnect, one with close code other than 4009,
keeps the stored sequence unchanged and sends a fresh IDENTIFY: the
sequence is not reset to absent. -/
theorem sequence_monotone_and_retained (st : GatewayState)
    (fs : List (Frame × Rat)) (code : Int)
    (hchain : List.Chain' (fun a b => seqLEb a b = true)
      (st.sequence :: dispSeqs fs))
    (hcode : code ≠ 4009) :
    List.Chain' (fun a b => seqLEb a b = true)
      (st.sequence :: seq_trace st fs) ∧
    (error_reconnect st code).1.sequence = st.sequence ∧
    (error_reconnect st code).2 =
      [Effect.connectSocket, Effect.resetInflate, Effect.sendIdentify,
       Effect.spawnReadLoop, Effect.enterKeepAlive] := by
  refine ⟨chain_seq_trace fs st hchain, ?_, ?_⟩ <;>
    rw [error_reconnect_of_fresh st code hcode]

/-- Witness for C7 on a concrete run followed by a fresh reconnect. -/
theorem sequence_monotone_and_retained_check :
    List.Chain' (fun a b => seqLEb a b = true)
      (stSample.sequence :: seq_trace stSample sampleFrames) ∧
    (error_reconnect stSample 4000).1.sequence = stSample.sequence ∧
    (error_reconnect stSample 4000).2 =
      [Effect.connectSocket, Effect.resetInflate, Effect.sendIdentify,
       Effect.spawnReadLoop, Effect.enterKeepAlive] :=
  sequence_monotone_and_retained stSample sampleFrames 4000
    (by
      show List.Chain' (fun a b => seqLEb a b = true)
        ((some 7 : Option Int) :: [some 8, some 9])
      simp [List.chain'_cons, seqLEb])
    (by decide)

/-- C7 counterexample: a fresh, non-resumed reconnect from a state with
stored sequence 7 sends IDENTIFY while the stored sequence stays 7, not
absent, refuting the claimed reset. -/
theorem sequence_not_reset_counterexample :
    (error_reconnect stSample 4000).1.sequence = some 7 ∧
    (error_reconnect stSample 4000).1.sequence ≠ none ∧
    Effect.sendIdentify ∈ (error_reconnect stSample 4000).2 := by
  refine ⟨rfl, by decide, ?_⟩
  rw [error_reconnect_of_fresh stSample 4000 (by decide)]
  simp

/-- C8, amended: the HELLO handler divides heartbeat_interval by one
thousand, sleeps (interval - 2000) / 1000 seconds, and schedules the
heartbeat task with the computed interval; it stores nothing and sends
neither IDENTIFY nor RESUME, while start sends IDENTIFY unconditionally
right after connecting, before any HELLO is processed. -/
theorem hello_schedules_heartbeat_only (st : GatewayState) (q : Rat) :
    send_hello st q =
      (st, [Effect.sleepFor ((q / 1000 - 2000) / 1000),
            Effect.scheduleHeartbeat (q / 1000)]) ∧
    (start st).2 =
      [Effect.connectSocket, Effect.resetInflate, Effect.sendIdentify,
       Effect.spawnReadLoop, Effect.enterKeepAlive] ∧
    sendsHandshake (send_hello st q).2 = false :=
  ⟨rfl, rfl, rfl⟩

/-- C8 counterexample: handling a HELLO frame with heartbeat_interval
41250 sends neither IDENTIFY nor RESUME and leaves the state untouched,
refuting the claimed IDENTIFY or RESUME on HELLO and the claimed storing
of the interval. -/
theorem hello_no_handshake_counterexample :
    sendsHandshake (validate_opcode stSample helloFrame 0).2 = false ∧
    (validate_opcode stSample helloFrame 0).1 = stSample :=
  ⟨rfl, rfl⟩

/-- C10, confirmed: when the socket is closed the heartbeat sender returns
at once: no frame is sent, no further heartbeat is scheduled and the state
is unchanged. -/
theorem no_heartbeat_on_closed_socket (st : GatewayState)
    (interval now : Rat) (h : st.socket_closed = true) :
    send_heartbeat st interval now = (st, []) := by
  simp [send_heartbeat, h]

/-- Witness for C10 at a concrete closed-socket state. -/
theorem no_heartbeat_on_closed_socket_check :
    send_heartbeat stClosed 50 100 = (stClosed, []) :=
  no_heartbeat_on_closed_socket stClosed 50 100 rfl

end Quant
